import Mathlib

/-!
Twixt, `META-INF/twixt/invoke-coffeescript.js`

A shallow embedding of the JavaScript function `compileCoffeeScriptSource`,
the adapter that calls the CoffeeScript compiler and shapes its outcome into
a result object, together with the properties its specification states.

The global `CoffeeScript.compile` is not part of the repository; it is a
parameter of the embedding.  A JavaScript evaluation either completes
normally with a value or abruptly with a thrown value; this is
`Except JSValue α`, where `Except.error e` reads "the evaluation threw `e`".
-/

namespace Twixt

deriving instance DecidableEq for Except

/-! ## JavaScript values -/

/-- JavaScript values, as far as their conversion to text tells them apart.
`errorObject` is an `Error` instance (of any subclass) that inherits
`Error.prototype.toString`; `object` is any other value whose `toString`
method returns the given text; `thrower` is an object whose `toString`
method throws the given value.  Objects keep the default `valueOf`.
Numbers are left out: their text is a floating-point rendering. -/
inductive JSValue where
  | undefined
  | null
  | boolean (b : Bool)
  | string (s : String)
  | errorObject (name message : String)
  | object (rendering : String)
  | thrower (thrown : JSValue)
  deriving DecidableEq, Repr

/-- A `TypeError` raised by the engine, with the engine's message. -/
def typeError (message : String) : JSValue := JSValue.errorObject "TypeError" message

/-- The method call `v.toString()`.  On `undefined` and `null` the engine
raises a `TypeError` (its message is worded here as the Rhino engine words
it; other engines word it differently); primitives render as themselves; an
`Error` instance follows `Error.prototype.toString` (ECMAScript 5.1,
15.11.4.4). -/
def JSValue.toString : JSValue → Except JSValue String
  | JSValue.undefined =>
      Except.error (typeError "Cannot call method \"toString\" of undefined")
  | JSValue.null =>
      Except.error (typeError "Cannot call method \"toString\" of null")
  | JSValue.boolean b => Except.ok (if b then "true" else "false")
  | JSValue.string s => Except.ok s
  | JSValue.errorObject name message =>
      Except.ok (if name = "" then message
                 else if message = "" then name
                 else name ++ ": " ++ message)
  | JSValue.object rendering => Except.ok rendering
  | JSValue.thrower thrown => Except.error thrown

/-- The text of `v` as the left operand of `+` with a string: `undefined` and
`null` give their names, every other value converts as `toString()` does. -/
def JSValue.concatText : JSValue → Except JSValue String
  | JSValue.undefined => Except.ok "undefined"
  | JSValue.null => Except.ok "null"
  | v => v.toString

/-- The `message` property of a thrown value: the error's own message text.
Only `Error` instances carry one. -/
def JSValue.message : JSValue → Option String
  | JSValue.errorObject _ message => some message
  | _ => none

/-! ## The external compiler -/

/-- The options object passed to `CoffeeScript.compile` (source lines 10-15). -/
structure CompileOptions where
  header : Bool
  filename : String
  sourceFiles : List String
  sourceMap : Bool
  inline : Bool
  deriving DecidableEq, Repr

/-- A value returned by the compiler, as far as the reads `result.js` and
`result.v3SourceMap` tell values apart: `undefined` and `null` have no
properties; any other value is given by the values of these two properties,
`undefined` standing for a missing one. -/
inductive Returned where
  | undefined
  | null
  | object (js v3SourceMap : JSValue)
  deriving DecidableEq, Repr

/-- The property read `result.js`; on `undefined` and `null` the engine raises
a `TypeError`. -/
def Returned.js : Returned → Except JSValue JSValue
  | Returned.undefined =>
      Except.error (typeError "Cannot read property \"js\" from undefined")
  | Returned.null =>
      Except.error (typeError "Cannot read property \"js\" from null")
  | Returned.object js _ => Except.ok js

/-- The property read `result.v3SourceMap`. -/
def Returned.v3SourceMap : Returned → Except JSValue JSValue
  | Returned.undefined =>
      Except.error (typeError "Cannot read property \"v3SourceMap\" from undefined")
  | Returned.null =>
      Except.error (typeError "Cannot read property \"v3SourceMap\" from null")
  | Returned.object _ v3SourceMap => Except.ok v3SourceMap

/-- The result object the compiler produces when a source map is requested:
compiled code and version-3 source map, both text. -/
structure CompileResult where
  js : String
  v3SourceMap : String
  deriving DecidableEq, Repr

/-- A compiler result as a returned value. -/
def CompileResult.value (result : CompileResult) : Returned :=
  Returned.object (JSValue.string result.js) (JSValue.string result.v3SourceMap)

/-- The capability `CoffeeScript.compile(source, options)`: it returns a
value or throws one. -/
abbrev Compiler := String → CompileOptions → Except JSValue Returned

/-- The options object the adapter builds for its call of the compiler. -/
def invocationOptions (filepath filename : String) : CompileOptions :=
  { header := true,
    filename := filepath,
    sourceFiles := [filename],
    sourceMap := true,
    inline := true }

/-! ## The adapter -/

/-- The object literal the adapter returns: a property is `none` when the
literal does not define it. -/
structure ResultObject where
  output : Option String
  sourceMap : Option JSValue
  exception : Option String
  deriving DecidableEq, Repr

/-- The body of the `try` block (source lines 10-20): the call of the
compiler, then the object literal, whose `output` reads `result.js` and adds
the trailer and whose `sourceMap` reads `result.v3SourceMap`. -/
def tryBlock (compile : Compiler)
    (input filepath filename : String) : Except JSValue ResultObject :=
  match compile input
      { header := true,
        filename := filepath,
        sourceFiles := [filename],
        sourceMap := true,
        inline := true } with
  | Except.error err => Except.error err
  | Except.ok result =>
      match result.js with
      | Except.error err => Except.error err
      | Except.ok js =>
          match js.concatText with
          | Except.error err => Except.error err
          | Except.ok code =>
              match result.v3SourceMap with
              | Except.error err => Except.error err
              | Except.ok map =>
                  Except.ok
                    { output := some (code ++ "\n//# sourceMappingURL=" ++ filename ++ "@source.map\n"),
                      sourceMap := some map,
                      exception := none }

/-- The function `compileCoffeeScriptSource(input, filepath, filename)`
(source lines 8-25), with the global `CoffeeScript.compile` as `compile`:
the `try` block, and the `catch` handler that returns `err.toString()`. -/
def compileCoffeeScriptSource (compile : Compiler)
    (input filepath filename : String) : Except JSValue ResultObject :=
  match tryBlock compile input filepath filename with
  | Except.ok value => Except.ok value
  | Except.error err =>
      match err.toString with
      | Except.ok text =>
          Except.ok { output := none, sourceMap := none, exception := some text }
      | Except.error raised => Except.error raised

/-! ## Vocabulary of the specification -/

/-- The `Success` variant: `output` and `sourceMap` present, no `exception`. -/
def ResultObject.isSuccess (r : ResultObject) : Bool :=
  r.output.isSome && r.sourceMap.isSome && r.exception.isNone

/-- The `Failure` variant: `exception` present, neither `output` nor
`sourceMap`. -/
def ResultObject.isFailure (r : ResultObject) : Bool :=
  r.exception.isSome && r.output.isNone && r.sourceMap.isNone

/-- The line `//# sourceMappingURL=<displayName>@source.map`, without a line
terminator, as the specification writes it. -/
def sourceMappingURLLine (displayName : String) : String :=
  "//# sourceMappingURL=" ++ displayName ++ "@source.map"

/-- The text of the last newline-terminated line of `s`: defined when `s`
ends with a newline character, and then the text between that newline and
the one before it (or the start of `s`). -/
def lastTerminatedLine (s : String) : Option String :=
  match s.data.reverse with
  | '\n' :: rest => some (String.mk (rest.takeWhile (fun c => c != '\n')).reverse)
  | _ => none

/-! ## Compilers for concrete instances -/

/-- A small deterministic stand-in for the external compiler, used to
evaluate the adapter on concrete inputs.  It rejects the incomplete source
`x = ` with a `SyntaxError` and otherwise returns the source as a statement
under a header comment; it never looks at the `filename` option. -/
def sampleCompiler : Compiler := fun source options =>
  if source = "x = " then
    Except.error (JSValue.errorObject "SyntaxError" "unexpected end of input")
  else
    Except.ok (CompileResult.value
      { js := "// Generated by CoffeeScript\n" ++ source ++ ";\n",
        v3SourceMap := "version 3 map of " ++ String.intercalate "," options.sourceFiles })

/-- A compiler that throws the same value on every call. -/
def throwingCompiler (thrown : JSValue) : Compiler := fun _ _ => Except.error thrown

/-- A compiler that returns the same result object on every call. -/
def returningCompiler (result : CompileResult) : Compiler :=
  fun _ _ => Except.ok result.value

/-- A compiler that returns the same value, of any kind, on every call. -/
def answeringCompiler (value : Returned) : Compiler := fun _ _ => Except.ok value

/-- A compiler that answers like `compile` on the one call `(source, options)`
and throws `undefined` on every other call. -/
def expectingCompiler (source : String) (options : CompileOptions)
    (compile : Compiler) : Compiler := fun s o =>
  if s = source ∧ o = options then compile s o else Except.error JSValue.undefined

/-- The options it was given, written out as text. -/
def describeOptions (options : CompileOptions) : String :=
  "header=" ++ (if options.header then "true" else "false")
    ++ " filename=" ++ options.filename
    ++ " sourceFiles=[" ++ String.intercalate "," options.sourceFiles ++ "]"
    ++ " sourceMap=" ++ (if options.sourceMap then "true" else "false")
    ++ " inline=" ++ (if options.inline then "true" else "false")

/-- A compiler that reports its arguments: it returns the source text it was
given as the compiled code and the options it was given as the source map. -/
def echoCompiler : Compiler := fun source options =>
  Except.ok (CompileResult.value { js := source, v3SourceMap := describeOptions options })

/-! ## Auxiliary lemmas -/

theorem trailer_split (js filename : String) :
    js ++ "\n//# sourceMappingURL=" ++ filename ++ "@source.map\n"
      = js ++ ("\n" ++ sourceMappingURLLine filename ++ "\n") := by
  have hA : "\n//# sourceMappingURL=" = "\n" ++ "//# sourceMappingURL=" := by decide
  have hB : "@source.map\n" = "@source.map" ++ "\n" := by decide
  rw [hA, hB]
  simp only [sourceMappingURLLine, String.append_assoc]

theorem tryBlock_of_returned {compile : Compiler} {input filepath filename : String}
    {result : CompileResult}
    (h : compile input (invocationOptions filepath filename) = Except.ok result.value) :
    tryBlock compile input filepath filename
      = Except.ok
          { output := some (result.js ++ "\n//# sourceMappingURL=" ++ filename ++ "@source.map\n"),
            sourceMap := some (JSValue.string result.v3SourceMap),
            exception := none } := by
  unfold invocationOptions at h
  unfold tryBlock
  rw [h]
  rfl

theorem tryBlock_of_threw {compile : Compiler} {input filepath filename : String}
    {err : JSValue}
    (h : compile input (invocationOptions filepath filename) = Except.error err) :
    tryBlock compile input filepath filename = Except.error err := by
  unfold invocationOptions at h
  unfold tryBlock
  rw [h]

theorem tryBlock_congr {first second : Compiler}
    {input pathOne pathTwo filename : String}
    (h : first input (invocationOptions pathOne filename)
          = second input (invocationOptions pathTwo filename)) :
    tryBlock first input pathOne filename = tryBlock second input pathTwo filename := by
  unfold invocationOptions at h
  unfold tryBlock
  rw [h]

theorem result_of_tryBlock_ok {compile : Compiler} {input filepath filename : String}
    {value : ResultObject}
    (h : tryBlock compile input filepath filename = Except.ok value) :
    compileCoffeeScriptSource compile input filepath filename = Except.ok value := by
  unfold compileCoffeeScriptSource
  rw [h]

theorem result_of_tryBlock_error {compile : Compiler} {input filepath filename : String}
    {err : JSValue}
    (h : tryBlock compile input filepath filename = Except.error err) :
    compileCoffeeScriptSource compile input filepath filename
      = match err.toString with
        | Except.ok text =>
            Except.ok { output := none, sourceMap := none, exception := some text }
        | Except.error raised => Except.error raised := by
  unfold compileCoffeeScriptSource
  rw [h]

theorem result_of_returned {compile : Compiler} {input filepath filename : String}
    {result : CompileResult}
    (h : compile input (invocationOptions filepath filename) = Except.ok result.value) :
    compileCoffeeScriptSource compile input filepath filename
      = Except.ok
          { output := some (result.js ++ "\n//# sourceMappingURL=" ++ filename ++ "@source.map\n"),
            sourceMap := some (JSValue.string result.v3SourceMap),
            exception := none } :=
  result_of_tryBlock_ok (tryBlock_of_returned h)

theorem result_of_threw {compile : Compiler} {input filepath filename : String}
    {err : JSValue} {text : String}
    (h : compile input (invocationOptions filepath filename) = Except.error err)
    (htext : err.toString = Except.ok text) :
    compileCoffeeScriptSource compile input filepath filename
      = Except.ok { output := none, sourceMap := none, exception := some text } := by
  rw [result_of_tryBlock_error (tryBlock_of_threw h), htext]

theorem result_eq_of_outcome_eq {first second : Compiler}
    {input pathOne pathTwo filename : String}
    (h : first input (invocationOptions pathOne filename)
          = second input (invocationOptions pathTwo filename)) :
    compileCoffeeScriptSource first input pathOne filename
      = compileCoffeeScriptSource second input pathTwo filename := by
  unfold compileCoffeeScriptSource
  rw [tryBlock_congr h]

theorem tryBlock_ok_isSuccess {compile : Compiler} {input filepath filename : String}
    {value : ResultObject}
    (h : tryBlock compile input filepath filename = Except.ok value) :
    value.isSuccess = true ∧ value.isFailure = false := by
  unfold tryBlock at h
  split at h
  · cases h
  · split at h
    · cases h
    · split at h
      · cases h
      · split at h
        · cases h
        · cases h
          exact ⟨rfl, rfl⟩

theorem tryBlock_error_iff (compile : Compiler) (input filepath filename : String) :
    (∃ err, tryBlock compile input filepath filename = Except.error err)
      ↔ (∃ err, compile input (invocationOptions filepath filename) = Except.error err)
        ∨ compile input (invocationOptions filepath filename) = Except.ok Returned.undefined
        ∨ compile input (invocationOptions filepath filename) = Except.ok Returned.null
        ∨ ∃ js map err, compile input (invocationOptions filepath filename)
              = Except.ok (Returned.object js map)
            ∧ js.concatText = Except.error err := by
  unfold tryBlock invocationOptions
  cases hc : compile input
      { header := true, filename := filepath, sourceFiles := [filename],
        sourceMap := true, inline := true } with
  | error err => simp
  | ok result =>
    cases result with
    | undefined => simp [Returned.js]
    | null => simp [Returned.js]
    | object js map =>
      cases hj : js.concatText with
      | error e => simp [Returned.js, hj]
      | ok code => simp [Returned.js, Returned.v3SourceMap, hj]

theorem not_newline_of_not_mem {cs : List Char} (h : '\n' ∉ cs) :
    ∀ c ∈ cs, (c != '\n') = true := by
  intro c hc
  simp only [bne_iff_ne, ne_eq]
  rintro rfl
  exact h hc

theorem lastTerminatedLine_append (before line : String) (h : '\n' ∉ line.data) :
    lastTerminatedLine (before ++ ("\n" ++ line ++ "\n")) = some line := by
  have hdata : (before ++ ("\n" ++ line ++ "\n")).data.reverse
      = '\n' :: (line.data.reverse ++ '\n' :: before.data.reverse) := by
    simp [String.data_append]
  unfold lastTerminatedLine
  rw [hdata]
  simp only
  rw [List.takeWhile_append_of_pos (fun c hc =>
    not_newline_of_not_mem h c (List.mem_reverse.mp hc))]
  simp

theorem newline_not_mem_line {displayName : String} (h : '\n' ∉ displayName.data) :
    '\n' ∉ (sourceMappingURLLine displayName).data := by
  have hA : '\n' ∉ "//# sourceMappingURL=".data := by decide
  have hB : '\n' ∉ "@source.map".data := by decide
  simp only [sourceMappingURLLine, String.data_append, List.mem_append, not_or]
  exact ⟨⟨hA, h⟩, hB⟩

/-! ## C1: a thrown value the handler cannot render -/

/-- Claim C1 says that the call returns a Failure object for every value the
compiler may throw.  At a thrown `null` the code does not: the handler
evaluates `err.toString()` on `null`, the engine raises a `TypeError` inside
the `catch` block, and the call raises it instead of returning an object. -/
theorem raises_when_compiler_throws_null :
    (∃ message,
        compileCoffeeScriptSource (throwingCompiler JSValue.null) "x = 1" "/tmp/a.coffee" "a.coffee"
          = Except.error (JSValue.errorObject "TypeError" message))
      ∧ ¬ ∃ r : ResultObject,
          compileCoffeeScriptSource (throwingCompiler JSValue.null) "x = 1" "/tmp/a.coffee" "a.coffee"
            = Except.ok r := by
  have hraise : compileCoffeeScriptSource (throwingCompiler JSValue.null)
      "x = 1" "/tmp/a.coffee" "a.coffee"
      = Except.error (JSValue.errorObject "TypeError" "Cannot call method \"toString\" of null") := by
    decide
  refine ⟨⟨_, hraise⟩, ?_⟩
  rintro ⟨r, hr⟩
  rw [hraise] at hr
  cases hr

/-! ## C2: the emitted code -/

/-- Claim C2: when the compiler returns a result with compiled code `js`, the
call returns an object whose `output` is `js`, unchanged, followed by the
line `//# sourceMappingURL=<displayName>@source.map` between two newline
characters, and by nothing else. -/
theorem output_is_js_then_trailer (compile : Compiler)
    (input filepath filename : String) (result : CompileResult)
    (hreturn : compile input (invocationOptions filepath filename) = Except.ok result.value) :
    ∃ r, compileCoffeeScriptSource compile input filepath filename = Except.ok r
      ∧ r.output = some (result.js ++ ("\n" ++ sourceMappingURLLine filename ++ "\n"))
      ∧ r.output = some (result.js ++ "\n//# sourceMappingURL=" ++ filename ++ "@source.map\n") := by
  refine ⟨_, result_of_returned hreturn, ?_, rfl⟩
  simp only [trailer_split]

/-- Instance of `output_is_js_then_trailer` on the sample compiler. -/
theorem output_is_js_then_trailer_witness :
    sampleCompiler "y = 2" (invocationOptions "/src/b.coffee" "b.coffee")
        = Except.ok (CompileResult.value
            { js := "// Generated by CoffeeScript\ny = 2;\n",
              v3SourceMap := "version 3 map of b.coffee" })
      ∧ ∃ r, compileCoffeeScriptSource sampleCompiler "y = 2" "/src/b.coffee" "b.coffee" = Except.ok r
          ∧ r.output = some ("// Generated by CoffeeScript\ny = 2;\n"
              ++ ("\n" ++ sourceMappingURLLine "b.coffee" ++ "\n"))
          ∧ r.output = some ("// Generated by CoffeeScript\ny = 2;\n"
              ++ "\n//# sourceMappingURL=" ++ "b.coffee" ++ "@source.map\n") :=
  ⟨by decide,
   output_is_js_then_trailer sampleCompiler "y = 2" "/src/b.coffee" "b.coffee"
     { js := "// Generated by CoffeeScript\ny = 2;\n", v3SourceMap := "version 3 map of b.coffee" }
     (by decide)⟩

/-! ## C3: accepted input gives Success ending with the trailer line -/

/-- Claim C3: for any input the compiler accepts and any `displayName`, the
call returns a Success object whose emitted code ends with the line
`//# sourceMappingURL=<displayName>@source.map`, standing after a newline and
closed by a newline. -/
theorem success_ends_with_trailer_line (compile : Compiler)
    (input filepath filename : String) (result : CompileResult)
    (hreturn : compile input (invocationOptions filepath filename) = Except.ok result.value) :
    ∃ r code, compileCoffeeScriptSource compile input filepath filename = Except.ok r
      ∧ r.isSuccess = true
      ∧ r.output = some code
      ∧ (∃ before, code = before ++ ("\n" ++ sourceMappingURLLine filename ++ "\n"))
      ∧ (sourceMappingURLLine filename ++ "\n").data <:+ code.data := by
  refine ⟨_, _, result_of_returned hreturn, rfl, rfl, ⟨result.js, trailer_split _ _⟩, ?_⟩
  rw [trailer_split]
  refine ⟨result.js.data ++ "\n".data, ?_⟩
  simp [String.data_append]

/-- Instance of `success_ends_with_trailer_line`: the scenario with input
`x = 1`, file path `/tmp/a.coffee` and display name `a.coffee`. -/
theorem success_ends_with_trailer_line_witness :
    sampleCompiler "x = 1" (invocationOptions "/tmp/a.coffee" "a.coffee")
        = Except.ok (CompileResult.value
            { js := "// Generated by CoffeeScript\nx = 1;\n",
              v3SourceMap := "version 3 map of a.coffee" })
      ∧ ∃ r code, compileCoffeeScriptSource sampleCompiler "x = 1" "/tmp/a.coffee" "a.coffee"
            = Except.ok r
          ∧ r.isSuccess = true
          ∧ r.output = some code
          ∧ (∃ before, code = before ++ ("\n" ++ sourceMappingURLLine "a.coffee" ++ "\n"))
          ∧ (sourceMappingURLLine "a.coffee" ++ "\n").data <:+ code.data :=
  ⟨by decide,
   success_ends_with_trailer_line sampleCompiler "x = 1" "/tmp/a.coffee" "a.coffee"
     { js := "// Generated by CoffeeScript\nx = 1;\n", v3SourceMap := "version 3 map of a.coffee" }
     (by decide)⟩

/-! ## C4: the text a Failure carries -/

/-- Claim C4 says that the Failure carries the compiler's error message text
verbatim, as the comment above the function does (`exception: <exception
message>`).  On the input `x = `, rejected with a `SyntaxError` whose message
is `unexpected end of input`, the code returns the rendering by
`err.toString()`, `SyntaxError: unexpected end of input`, which is not that
message. -/
theorem failure_text_is_not_the_message :
    sampleCompiler "x = " (invocationOptions "/tmp/a.coffee" "a.coffee")
        = Except.error (JSValue.errorObject "SyntaxError" "unexpected end of input")
      ∧ (JSValue.errorObject "SyntaxError" "unexpected end of input").message
        = some "unexpected end of input"
      ∧ compileCoffeeScriptSource sampleCompiler "x = " "/tmp/a.coffee" "a.coffee"
        = Except.ok { output := none, sourceMap := none,
                      exception := some "SyntaxError: unexpected end of input" }
      ∧ compileCoffeeScriptSource sampleCompiler "x = " "/tmp/a.coffee" "a.coffee"
        ≠ Except.ok { output := none, sourceMap := none,
                      exception := some "unexpected end of input" } := by
  decide

/-! ## C5: the arguments of the compiler call -/

/-- Claim C5: the compiler is called on the unchanged source text with the
options `header: true`, `filename: filepath`, `sourceFiles: [filename]`,
`sourceMap: true`, `inline: true`, none of them built from the source text,
and the answer to that call is what the adapter returns from: whatever the
compiler does on other arguments, a result object returned for these
arguments gives the Success built from it, and a value thrown for these
arguments gives the Failure carrying its `toString()` text. -/
theorem compiler_called_with_fixed_options (compile : Compiler)
    (input filepath filename : String) :
    (∀ result : CompileResult,
        compile input
            { header := true, filename := filepath, sourceFiles := [filename],
              sourceMap := true, inline := true }
          = Except.ok result.value →
        compileCoffeeScriptSource compile input filepath filename
          = Except.ok
              { output := some (result.js ++ "\n//# sourceMappingURL=" ++ filename ++ "@source.map\n"),
                sourceMap := some (JSValue.string result.v3SourceMap),
                exception := none })
      ∧ (∀ err text,
        compile input
            { header := true, filename := filepath, sourceFiles := [filename],
              sourceMap := true, inline := true }
          = Except.error err →
        err.toString = Except.ok text →
        compileCoffeeScriptSource compile input filepath filename
          = Except.ok { output := none, sourceMap := none, exception := some text }) :=
  ⟨fun _ h => result_of_returned h, fun _ _ h htext => result_of_threw h htext⟩

/-- Instance of `compiler_called_with_fixed_options`: the compiler that
reports its arguments shows the source text and the options it was given. -/
theorem compiler_called_with_fixed_options_witness :
    compileCoffeeScriptSource echoCompiler "x = 1" "/tmp/a.coffee" "a.coffee"
      = Except.ok
          { output := some ("x = 1" ++ "\n//# sourceMappingURL=" ++ "a.coffee" ++ "@source.map\n"),
            sourceMap := some (JSValue.string
              "header=true filename=/tmp/a.coffee sourceFiles=[a.coffee] sourceMap=true inline=true"),
            exception := none } :=
  (compiler_called_with_fixed_options echoCompiler "x = 1" "/tmp/a.coffee" "a.coffee").1
    { js := "x = 1",
      v3SourceMap :=
        "header=true filename=/tmp/a.coffee sourceFiles=[a.coffee] sourceMap=true inline=true" }
    (by decide)

/-! ## C6: the source map -/

/-- Claim C6: when the compiler succeeds, the `sourceMap` property of the
returned object is the compiler's `v3SourceMap` text, unchanged; the trailer
goes into `output` only. -/
theorem sourceMap_is_v3SourceMap (compile : Compiler)
    (input filepath filename : String) (result : CompileResult)
    (hreturn : compile input (invocationOptions filepath filename) = Except.ok result.value) :
    ∃ r, compileCoffeeScriptSource compile input filepath filename = Except.ok r
      ∧ r.isSuccess = true
      ∧ r.sourceMap = some (JSValue.string result.v3SourceMap) := by
  exact ⟨_, result_of_returned hreturn, rfl, rfl⟩

/-- Instance of `sourceMap_is_v3SourceMap` on the sample compiler. -/
theorem sourceMap_is_v3SourceMap_witness :
    ∃ r, compileCoffeeScriptSource sampleCompiler "z = 3" "/src/c.coffee" "c.coffee" = Except.ok r
      ∧ r.isSuccess = true
      ∧ r.sourceMap = some (JSValue.string "version 3 map of c.coffee") :=
  sourceMap_is_v3SourceMap sampleCompiler "z = 3" "/src/c.coffee" "c.coffee"
    { js := "// Generated by CoffeeScript\nz = 3;\n", v3SourceMap := "version 3 map of c.coffee" }
    (by decide)

/-! ## C7: the two variants -/

/-- Claim C7, as stated, fails: a compiler that returns `null` does not
raise, yet the call returns a Failure, because reading `result.js` raises
inside the `try` block and the handler turns that into a Failure as well. -/
theorem failure_without_compiler_raising :
    answeringCompiler Returned.null "x = 1" (invocationOptions "/tmp/a.coffee" "a.coffee")
        = Except.ok Returned.null
      ∧ (¬ ∃ err, answeringCompiler Returned.null "x = 1"
            (invocationOptions "/tmp/a.coffee" "a.coffee") = Except.error err)
      ∧ ∃ r, compileCoffeeScriptSource (answeringCompiler Returned.null)
              "x = 1" "/tmp/a.coffee" "a.coffee" = Except.ok r
          ∧ r.isFailure = true
          ∧ r.isSuccess = false := by
  refine ⟨rfl, ?_, ?_⟩
  · rintro ⟨err, herr⟩
    cases herr
  · exact ⟨{ output := none, sourceMap := none,
             exception := some "TypeError: Cannot read property \"js\" from null" },
           by decide, rfl, rfl⟩

/-- Claim C7 (amended): every object the call returns is either a Success
(both `output` and `sourceMap`, no `exception`) or a Failure (only
`exception`), never both.  It is the Success built in the `try` block exactly
when that block completes, and a Failure exactly when an error is raised
inside the `try` block: by the compiler, or by reading `js` and
`v3SourceMap` from the value it returned (a returned `undefined` or `null`,
or a `js` whose conversion to text throws).  A completed block is returned as
it is, and an error with a text is returned as the Failure carrying it. -/
theorem result_is_success_or_failure (compile : Compiler)
    (input filepath filename : String) :
    (∀ r, compileCoffeeScriptSource compile input filepath filename = Except.ok r →
        (r.isSuccess = true ∨ r.isFailure = true)
        ∧ ¬ (r.isSuccess = true ∧ r.isFailure = true)
        ∧ (r.isSuccess = true ↔
            ∃ value, tryBlock compile input filepath filename = Except.ok value)
        ∧ (r.isFailure = true ↔
            ∃ err, tryBlock compile input filepath filename = Except.error err))
      ∧ (∀ value, tryBlock compile input filepath filename = Except.ok value →
          compileCoffeeScriptSource compile input filepath filename = Except.ok value
            ∧ value.isSuccess = true)
      ∧ (∀ err text, tryBlock compile input filepath filename = Except.error err →
          err.toString = Except.ok text →
          compileCoffeeScriptSource compile input filepath filename
            = Except.ok { output := none, sourceMap := none, exception := some text })
      ∧ ((∃ err, tryBlock compile input filepath filename = Except.error err)
          ↔ (∃ err, compile input (invocationOptions filepath filename) = Except.error err)
            ∨ compile input (invocationOptions filepath filename) = Except.ok Returned.undefined
            ∨ compile input (invocationOptions filepath filename) = Except.ok Returned.null
            ∨ ∃ js map err, compile input (invocationOptions filepath filename)
                  = Except.ok (Returned.object js map)
                ∧ js.concatText = Except.error err) := by
  refine ⟨?_, ?_, ?_, tryBlock_error_iff compile input filepath filename⟩
  · intro r hr
    cases ht : tryBlock compile input filepath filename with
    | ok value =>
      rw [result_of_tryBlock_ok ht] at hr
      cases hr
      obtain ⟨hs, hf⟩ := tryBlock_ok_isSuccess ht
      simp [hs, hf]
    | error err =>
      rw [result_of_tryBlock_error ht] at hr
      cases hs : err.toString with
      | ok text =>
        rw [hs] at hr
        cases hr
        simp [ResultObject.isSuccess, ResultObject.isFailure]
      | error raised =>
        rw [hs] at hr
        cases hr
  · intro value ht
    exact ⟨result_of_tryBlock_ok ht, (tryBlock_ok_isSuccess ht).1⟩
  · intro err text ht htext
    rw [result_of_tryBlock_error ht, htext]

/-- Instance of `result_is_success_or_failure`: the sample compiler rejects
`x = `, the `try` block raises, and the call returns the Failure. -/
theorem result_is_success_or_failure_witness :
    compileCoffeeScriptSource sampleCompiler "x = " "/src/d.coffee" "d.coffee"
      = Except.ok { output := none, sourceMap := none,
                    exception := some "SyntaxError: unexpected end of input" } :=
  (result_is_success_or_failure sampleCompiler "x = " "/src/d.coffee" "d.coffee").2.2.1
    (JSValue.errorObject "SyntaxError" "unexpected end of input")
    "SyntaxError: unexpected end of input" (by decide) (by decide)

/-! ## C8: determinism -/

/-- Claim C8: two calls with identical source text, file path and display
name give identical outcomes (the same emitted code and source map, the same
Failure message, or the same raised value) as soon as the compiler answers
the one call the adapter makes in the same way on both occasions; a
deterministic compiler does.  The adapter consults the compiler nowhere else
and adds nothing of its own that could vary. -/
theorem transform_deterministic (first second : Compiler)
    (input filepath filename : String)
    (hsame : first input
        { header := true, filename := filepath, sourceFiles := [filename],
          sourceMap := true, inline := true }
      = second input
        { header := true, filename := filepath, sourceFiles := [filename],
          sourceMap := true, inline := true }) :
    compileCoffeeScriptSource first input filepath filename
        = compileCoffeeScriptSource second input filepath filename
      ∧ ∀ r r2, compileCoffeeScriptSource first input filepath filename = Except.ok r →
          compileCoffeeScriptSource second input filepath filename = Except.ok r2 →
          r.output = r2.output ∧ r.sourceMap = r2.sourceMap ∧ r.exception = r2.exception := by
  have heq : compileCoffeeScriptSource first input filepath filename
      = compileCoffeeScriptSource second input filepath filename :=
    result_eq_of_outcome_eq hsame
  refine ⟨heq, ?_⟩
  intro r r2 h1 h2
  rw [heq, h2] at h1
  cases h1
  exact ⟨rfl, rfl, rfl⟩

/-- Instance of `transform_deterministic`: two compilers that differ on
other arguments and agree on the adapter's call. -/
theorem transform_deterministic_witness :
    expectingCompiler "x = 1" (invocationOptions "/tmp/a.coffee" "a.coffee") sampleCompiler
        "y = 2" (invocationOptions "/tmp/a.coffee" "a.coffee")
      ≠ sampleCompiler "y = 2" (invocationOptions "/tmp/a.coffee" "a.coffee")
      ∧ compileCoffeeScriptSource
          (expectingCompiler "x = 1" (invocationOptions "/tmp/a.coffee" "a.coffee") sampleCompiler)
          "x = 1" "/tmp/a.coffee" "a.coffee"
        = compileCoffeeScriptSource sampleCompiler "x = 1" "/tmp/a.coffee" "a.coffee" :=
  ⟨by decide,
   (transform_deterministic
      (expectingCompiler "x = 1" (invocationOptions "/tmp/a.coffee" "a.coffee") sampleCompiler)
      sampleCompiler "x = 1" "/tmp/a.coffee" "a.coffee" (by decide)).1⟩

/-! ## C9: the file path -/

/-- Claim C9: the file path reaches the result only through the `filename`
option of the compiler call.  For a compiler whose returned result does not
depend on that option, a call on which the compiler returns gives a Success
whose trailer is built from the display name alone, a call that differs only
in the file path gives the same result, and so does any compiler that
answers the second call as this one answers the first. -/
theorem filepath_only_reaches_compiler (compile : Compiler)
    (hindependent : ∀ source options path returned,
      compile source options = Except.ok returned →
      compile source { options with filename := path } = Except.ok returned)
    (input filepath filepath2 filename : String) (result : CompileResult)
    (hreturn : compile input (invocationOptions filepath filename) = Except.ok result.value) :
    compileCoffeeScriptSource compile input filepath filename
        = Except.ok
            { output := some (result.js ++ ("\n" ++ sourceMappingURLLine filename ++ "\n")),
              sourceMap := some (JSValue.string result.v3SourceMap),
              exception := none }
      ∧ compileCoffeeScriptSource compile input filepath2 filename
        = compileCoffeeScriptSource compile input filepath filename
      ∧ ∀ other : Compiler,
          other input (invocationOptions filepath2 filename)
            = compile input (invocationOptions filepath filename) →
          compileCoffeeScriptSource other input filepath2 filename
            = compileCoffeeScriptSource compile input filepath filename := by
  refine ⟨?_, ?_, fun other h => result_eq_of_outcome_eq h⟩
  · rw [result_of_returned hreturn, trailer_split]
  · apply result_eq_of_outcome_eq
    rw [hreturn]
    exact hindependent input (invocationOptions filepath filename) filepath2 _ hreturn

/-- Instance of `filepath_only_reaches_compiler`: the sample compiler never
reads the `filename` option. -/
theorem filepath_only_reaches_compiler_witness :
    compileCoffeeScriptSource sampleCompiler "x = 1" "/tmp/a.coffee" "a.coffee"
        = Except.ok
            { output := some ("// Generated by CoffeeScript\nx = 1;\n"
                ++ ("\n" ++ sourceMappingURLLine "a.coffee" ++ "\n")),
              sourceMap := some (JSValue.string "version 3 map of a.coffee"),
              exception := none }
      ∧ compileCoffeeScriptSource sampleCompiler "x = 1" "/home/build/a.coffee" "a.coffee"
        = compileCoffeeScriptSource sampleCompiler "x = 1" "/tmp/a.coffee" "a.coffee"
      ∧ ∀ other : Compiler,
          other "x = 1" (invocationOptions "/home/build/a.coffee" "a.coffee")
            = sampleCompiler "x = 1" (invocationOptions "/tmp/a.coffee" "a.coffee") →
          compileCoffeeScriptSource other "x = 1" "/home/build/a.coffee" "a.coffee"
            = compileCoffeeScriptSource sampleCompiler "x = 1" "/tmp/a.coffee" "a.coffee" :=
  filepath_only_reaches_compiler sampleCompiler
    (fun source options path returned h => by
      simpa [sampleCompiler] using h)
    "x = 1" "/tmp/a.coffee" "/home/build/a.coffee" "a.coffee"
    { js := "// Generated by CoffeeScript\nx = 1;\n", v3SourceMap := "version 3 map of a.coffee" }
    (by decide)

/-! ## C10: the trailer stands on a line of its own -/

/-- Claim C10: for every compiled `js`, ending with a line break or not, and
every display name without a newline character, the Success output is `js`,
a newline, the line `//# sourceMappingURL=<displayName>@source.map` with the
display name inserted as it is, and a newline: the output ends with a newline
and its last newline-terminated line is exactly that line. -/
theorem trailer_on_its_own_line (compile : Compiler)
    (input filepath filename : String) (result : CompileResult)
    (hreturn : compile input (invocationOptions filepath filename) = Except.ok result.value)
    (hname : '\n' ∉ filename.data) :
    ∃ r code, compileCoffeeScriptSource compile input filepath filename = Except.ok r
      ∧ r.isSuccess = true
      ∧ r.output = some code
      ∧ code = result.js ++ ("\n" ++ sourceMappingURLLine filename ++ "\n")
      ∧ code.data.getLast? = some '\n'
      ∧ lastTerminatedLine code = some (sourceMappingURLLine filename)
      ∧ sourceMappingURLLine filename
          = "//# sourceMappingURL=" ++ filename ++ "@source.map" := by
  refine ⟨_, _, result_of_returned hreturn, rfl, rfl, trailer_split _ _, ?_, ?_, rfl⟩
  · rw [trailer_split]
    have hdata : (result.js ++ ("\n" ++ sourceMappingURLLine filename ++ "\n")).data
        = (result.js.data ++ '\n' :: (sourceMappingURLLine filename).data) ++ ['\n'] := by
      simp [String.data_append]
    rw [hdata, List.getLast?_concat]
  · rw [trailer_split]
    exact lastTerminatedLine_append _ _ (newline_not_mem_line hname)

/-- Instance of `trailer_on_its_own_line`: compiled code that does not end
with a line break. -/
theorem trailer_on_its_own_line_witness :
    '\n' ∉ "a.coffee".data
      ∧ ∃ r code, compileCoffeeScriptSource
            (returningCompiler { js := "x = 1;", v3SourceMap := "map" })
            "x = 1" "/tmp/a.coffee" "a.coffee" = Except.ok r
          ∧ r.isSuccess = true
          ∧ r.output = some code
          ∧ code = "x = 1;" ++ ("\n" ++ sourceMappingURLLine "a.coffee" ++ "\n")
          ∧ code.data.getLast? = some '\n'
          ∧ lastTerminatedLine code = some (sourceMappingURLLine "a.coffee")
          ∧ sourceMappingURLLine "a.coffee"
              = "//# sourceMappingURL=" ++ "a.coffee" ++ "@source.map" :=
  ⟨by decide,
   trailer_on_its_own_line (returningCompiler { js := "x = 1;", v3SourceMap := "map" })
     "x = 1" "/tmp/a.coffee" "a.coffee" { js := "x = 1;", v3SourceMap := "map" }
     rfl (by decide)⟩

end Twixt
